import Mathlib

/-!
# voice-server: shallow embedding of the per-call WebSocket bridge

The repository contains successive revisions of the same server
(`src/server.js`).  The claims cite:

* "rev 1"  — `src/server.js` lines 1–274: `connectElevenLabs()` is invoked
  from the telephony `start` case; media payloads are forwarded verbatim;
  the audio-payload chain is `msg.audio?.chunk || msg.audio_event?.audio_base_64
  || msg.audio` guarded by `typeof payload === "string" && payload.length > 0`;
  `ping` always answers with a pong (`event_id` attached only when truthy).
* "rev 2"  — lines 275–563 and "rev 4" — lines 564–930: the WebSocket
  handler bodies of these two revisions are byte-for-byte identical (rev 4
  only adds HTTP-side auth middleware, outside the bridge).  Both call
  `setupElevenLabs()` at connection accept (before `start`), re-encode media
  payloads with `Buffer.from(p, "base64").toString("base64")`, use the
  two-key payload chain guarded by plain truthiness, and answer `ping` only
  when `ping_event.event_id` is truthy.  They are embedded here once, as the
  `stepR4` machine (`stepR4` = rev 2 = rev 4 for every claim-relevant line).

Modelling conventions:
* Each `wss.on("connection", ...)` closure becomes a `Sess` record holding
  the closure variables `streamSid`, `callSid`, `elevenWs` (its nullness and
  `readyState`), the telephony socket's open/closed status, and (rev 1)
  `conversationId`.
* Every socket callback firing is an input event `Ev`; the calls the handler
  makes (`send`, `close`, `new WebSocket`, the signed-url fetch) are outputs
  `Act`.  Logging (`log(...)`, `console.log`) is omitted: it writes only
  to the in-memory log buffer / stdout and touches no claim.
* `ws` semantics used: a socket created by `new WebSocket(url)` starts in
  `CONNECTING`; the library sets `readyState` to `OPEN` before emitting the
  `open` event; calling `close()` moves `readyState` to `CLOSING`
  synchronously, so the `readyState === WebSocket.OPEN` guards in the `stop`
  and `close` handlers see the post-`close()` state.
* JavaScript values reached by the handlers (`msg.audio`,
  `msg.audio_event`, `msg.ping_event`, `msg.conversation_id`) are modelled
  by `Js`; `||` is `jsOr` (first truthy operand), `a?.b` is `jsGet`
  (`undefined` on non-objects and missing keys), and truthiness follows
  JavaScript (`undefined`, `null`, `false`, `0`, `""` falsy).
* The source contains no `twilioWs.close()` call site in any revision, so
  the action vocabulary has no telephony-close output: the telephony socket
  can only be closed by its peer (input event `Ev.twilioClose`).
-/

/-- JavaScript values as far as the handlers inspect them. -/
inductive Js where
  | undefined
  | null
  | bool (b : Bool)
  | num (n : Int)
  | str (s : String)
  | obj (fields : List (String × Js))

/-- JavaScript truthiness: `undefined`, `null`, `false`, `0`, `""` are falsy. -/
def truthy : Js → Bool
  | .undefined => false
  | .null => false
  | .bool b => b
  | .num n => n != 0
  | .str s => s != ""
  | .obj _ => true

/-- Optional-chained property access `v?.k`: `undefined` unless `v` is an
object carrying the key. -/
def jsGet (v : Js) (k : String) : Js :=
  match v with
  | .obj fields => (((fields.find? (fun p => p.fst == k)).map Prod.snd).getD .undefined)
  | _ => .undefined

/-- JavaScript `a || b`: the first truthy operand, else `b`. -/
def jsOr (a b : Js) : Js :=
  if truthy a then a else b

/-- Truthiness of an environment variable (`undefined` or the string value). -/
def envTruthy : Option String → Bool
  | none => false
  | some s => s != ""

/-- The environment variables the bridge reads. -/
structure Config where
  ELEVENLABS_API_KEY : Option String
  ELEVENLABS_AGENT_ID : Option String

/-- `WebSocket.readyState` values. -/
inductive ReadyState where
  | CONNECTING
  | OPEN
  | CLOSING
  | CLOSED
deriving DecidableEq

/-- The per-connection closure state of `wss.on("connection", ...)`. -/
structure Sess where
  streamSid : Option String
  callSid : Option String
  eleven : Option ReadyState
  twilioOpen : Bool
  handshake : Bool
  conversationId : Js

/-- State of a freshly accepted telephony connection, before any handler ran. -/
def initSess : Sess :=
  { streamSid := none, callSid := none, eleven := none,
    twilioOpen := true, handshake := false, conversationId := .undefined }

/-- Decoded inbound telephony frames (`msg.event` dispatch); unknown tags and
JSON parse failures both fall through the `switch` doing nothing and are
merged into `other`. -/
inductive TwilioIn where
  | connected
  | start (streamSid callSid : String)
  | media (payload : String)
  | stop
  | other

/-- Decoded inbound AI frames (`msg.type` dispatch).  `audio` carries the raw
`msg.audio` and `msg.audio_event` values, `ping` the raw `msg.ping_event`,
`initMetadata` the raw `msg.conversation_id`. -/
inductive ElevenIn where
  | initMetadata (conversationId : Js)
  | audio (audioField audioEventField : Js)
  | agentResponse
  | userTranscript
  | interruption
  | ping (pingEvent : Js)
  | errorEvent
  | other

/-- Input events: each firing of a socket callback, plus (rev 2/4) the
resolution of the `getSignedUrl()` promise. -/
inductive Ev where
  | twilioMsg (m : TwilioIn)
  | twilioClose
  | twilioError
  | elevenOpen
  | elevenMsg (m : ElevenIn)
  | elevenClose
  | elevenError
  | setupOk
  | setupFail

/-- Messages written to the AI socket. -/
inductive ElevenOut where
  | initConversation
  | userAudioChunk (payload : String)
  | pong (eventId : Option Js)

/-- Frames written to the telephony socket. -/
inductive TwilioOut where
  | media (streamSid : String) (payload : Js)
  | clear (streamSid : String)

/-- Observable calls a handler makes. -/
inductive Act where
  | sendEleven (m : ElevenOut)
  | sendTwilio (m : TwilioOut)
  | closeEleven
  | connectEleven
  | requestSignedUrl

def isCloseEleven : Act → Bool
  | .closeEleven => true
  | _ => false

def isConnectAct : Act → Bool
  | .connectEleven => true
  | .requestSignedUrl => true
  | _ => false

/-- Node `Buffer.from(s, "base64")`: characters outside the base64 alphabet
(including `=` padding) are skipped; each remaining character contributes six
bits; trailing bits short of a byte are discarded. -/
def b64CharVal (c : Char) : Option Nat :=
  let n := c.toNat
  if 65 ≤ n ∧ n ≤ 90 then some (n - 65)
  else if 97 ≤ n ∧ n ≤ 122 then some (n - 97 + 26)
  else if 48 ≤ n ∧ n ≤ 57 then some (n - 48 + 52)
  else if n = 43 then some 62
  else if n = 47 then some 63
  else none

def b64ValChar (n : Nat) : Char :=
  if n < 26 then Char.ofNat (65 + n)
  else if n < 52 then Char.ofNat (97 + (n - 26))
  else if n < 62 then Char.ofNat (48 + (n - 52))
  else if n = 62 then '+'
  else '/'

def sextetsToBytes : List Nat → List Nat
  | a :: b :: c :: d :: rest =>
      (a * 4 + b / 16) :: ((b % 16) * 16 + c / 4) :: ((c % 4) * 64 + d)
        :: sextetsToBytes rest
  | [a, b] => [a * 4 + b / 16]
  | [a, b, c] => [a * 4 + b / 16, (b % 16) * 16 + c / 4]
  | _ => []

def bytesToB64Chars : List Nat → List Char
  | x :: y :: z :: rest =>
      b64ValChar (x / 4) :: b64ValChar ((x % 4) * 16 + y / 16)
        :: b64ValChar ((y % 16) * 4 + z / 64) :: b64ValChar (z % 64)
        :: bytesToB64Chars rest
  | [x, y] => [b64ValChar (x / 4), b64ValChar ((x % 4) * 16 + y / 16),
      b64ValChar ((y % 16) * 4), '=']
  | [x] => [b64ValChar (x / 4), b64ValChar ((x % 4) * 16), '=', '=']
  | [] => []

/-- `Buffer.from(s, "base64")` as a byte list. -/
def b64decode (s : String) : List Nat :=
  sextetsToBytes (s.data.filterMap b64CharVal)

/-- `buf.toString("base64")`: canonical padded base64. -/
def b64encode (bs : List Nat) : String :=
  ⟨bytesToB64Chars bs⟩

/-- The rev-1 audio payload chain
`msg.audio?.chunk || msg.audio_event?.audio_base_64 || msg.audio`. -/
def payloadRev1 (audioField audioEventField : Js) : Js :=
  jsOr (jsOr (jsGet audioField "chunk") (jsGet audioEventField "audio_base_64"))
    audioField

/-- The rev-2/4 audio payload chain
`msg.audio?.chunk || msg.audio_event?.audio_base_64`. -/
def payloadRev4 (audioField audioEventField : Js) : Js :=
  jsOr (jsGet audioField "chunk") (jsGet audioEventField "audio_base_64")

/-- Rev 1 `connectElevenLabs()`: two missing-credential guards, then
`elevenWs = new WebSocket(wsUrl, ...)`. -/
def connectElevenLabs (cfg : Config) (s : Sess) : Sess × List Act :=
  if !envTruthy cfg.ELEVENLABS_API_KEY then (s, [])
  else if !envTruthy cfg.ELEVENLABS_AGENT_ID then (s, [])
  else ({ s with eleven := some .CONNECTING }, [.connectEleven])

/-- Rev 1 `elevenWs.on("message", ...)` body (the handler only runs while the
socket object exists, which the caller `stepR1` checks). -/
def onElevenMsgR1 (s : Sess) (m : ElevenIn) : Sess × List Act :=
  match m with
  | .initMetadata cid => ({ s with conversationId := cid }, [])
  | .audio audioField audioEventField =>
      match s.streamSid with
      | some sid =>
          if (sid != "") && s.twilioOpen then
            match payloadRev1 audioField audioEventField with
            | .str t =>
                if t.length > 0 then (s, [.sendTwilio (.media sid (.str t))])
                else (s, [])
            | _ => (s, [])
          else (s, [])
      | none => (s, [])
  | .agentResponse => (s, [])
  | .userTranscript => (s, [])
  | .interruption =>
      match s.streamSid with
      | some sid =>
          if (sid != "") && s.twilioOpen then (s, [.sendTwilio (.clear sid)])
          else (s, [])
      | none => (s, [])
  | .ping pingEvent =>
      let eid := jsGet pingEvent "event_id"
      (s, [.sendEleven (.pong (if truthy eid then some eid else none))])
  | .errorEvent => (s, [])
  | .other => (s, [])

/-- Rev 2/4 `elevenWs.on("message", ...)` body. -/
def onElevenMsgR4 (s : Sess) (m : ElevenIn) : Sess × List Act :=
  match m with
  | .initMetadata _ => (s, [])
  | .audio audioField audioEventField =>
      match s.streamSid with
      | some sid =>
          if (sid != "") && s.twilioOpen then
            let payload := payloadRev4 audioField audioEventField
            if truthy payload then (s, [.sendTwilio (.media sid payload)])
            else (s, [])
          else (s, [])
      | none => (s, [])
  | .agentResponse => (s, [])
  | .userTranscript => (s, [])
  | .interruption =>
      match s.streamSid with
      | some sid =>
          if (sid != "") && s.twilioOpen then (s, [.sendTwilio (.clear sid)])
          else (s, [])
      | none => (s, [])
  | .ping pingEvent =>
      let eid := jsGet pingEvent "event_id"
      if truthy eid then (s, [.sendEleven (.pong (some eid))]) else (s, [])
  | .errorEvent => (s, [])
  | .other => (s, [])

/-- One callback firing of the rev-1 bridge. -/
def stepR1 (cfg : Config) (s : Sess) (e : Ev) : Sess × List Act :=
  match e with
  | .twilioMsg m =>
      match m with
      | .connected => (s, [])
      | .start sid cid =>
          connectElevenLabs cfg { s with streamSid := some sid, callSid := some cid }
      | .media p =>
          if s.eleven = some .OPEN then (s, [.sendEleven (.userAudioChunk p)])
          else (s, [])
      | .stop =>
          if s.eleven = some .OPEN then
            ({ s with eleven := some .CLOSING }, [.closeEleven])
          else (s, [])
      | .other => (s, [])
  | .twilioClose =>
      if s.eleven = some .OPEN then
        ({ s with twilioOpen := false, eleven := some .CLOSING }, [.closeEleven])
      else ({ s with twilioOpen := false }, [])
  | .twilioError => (s, [])
  | .elevenOpen =>
      match s.eleven with
      | some _ => ({ s with eleven := some .OPEN }, [.sendEleven .initConversation])
      | none => (s, [])
  | .elevenMsg m =>
      match s.eleven with
      | some _ => onElevenMsgR1 s m
      | none => (s, [])
  | .elevenClose =>
      match s.eleven with
      | some _ => ({ s with eleven := none }, [])
      | none => (s, [])
  | .elevenError => (s, [])
  | .setupOk => (s, [])
  | .setupFail => (s, [])

/-- Rev 2/4 `setupElevenLabs()` up to its `await getSignedUrl()`: the
missing-credential guard, then the signed-url request is issued. -/
def setupElevenLabs (cfg : Config) (s : Sess) : Sess × List Act :=
  if !envTruthy cfg.ELEVENLABS_API_KEY || !envTruthy cfg.ELEVENLABS_AGENT_ID then
    (s, [])
  else ({ s with handshake := true }, [.requestSignedUrl])

/-- Rev 2/4 connection accept: `setupElevenLabs()` runs immediately, before
any telephony event is processed. -/
def initR4 (cfg : Config) : Sess × List Act :=
  setupElevenLabs cfg initSess

/-- One callback firing of the rev-2/4 bridge. -/
def stepR4 (s : Sess) (e : Ev) : Sess × List Act :=
  match e with
  | .twilioMsg m =>
      match m with
      | .connected => (s, [])
      | .start sid cid =>
          ({ s with streamSid := some sid, callSid := some cid }, [])
      | .media p =>
          if s.eleven = some .OPEN then
            (s, [.sendEleven (.userAudioChunk (b64encode (b64decode p)))])
          else (s, [])
      | .stop =>
          if s.eleven = some .OPEN then
            ({ s with eleven := some .CLOSING }, [.closeEleven])
          else (s, [])
      | .other => (s, [])
  | .twilioClose =>
      if s.eleven = some .OPEN then
        ({ s with twilioOpen := false, eleven := some .CLOSING }, [.closeEleven])
      else ({ s with twilioOpen := false }, [])
  | .twilioError => (s, [])
  | .elevenOpen =>
      match s.eleven with
      | some _ => ({ s with eleven := some .OPEN }, [.sendEleven .initConversation])
      | none => (s, [])
  | .elevenMsg m =>
      match s.eleven with
      | some _ => onElevenMsgR4 s m
      | none => (s, [])
  | .elevenClose =>
      match s.eleven with
      | some _ => ({ s with eleven := none }, [])
      | none => (s, [])
  | .elevenError => (s, [])
  | .setupOk =>
      if s.handshake then
        ({ s with eleven := some .CONNECTING, handshake := false }, [.connectEleven])
      else (s, [])
  | .setupFail => ({ s with handshake := false }, [])

/-- Process a list of events, recording each firing's outputs separately (in
firing order, one output list per event). -/
def runWith (stp : Sess → Ev → Sess × List Act) :
    Sess → List Ev → Sess × List (List Act)
  | s, [] => (s, [])
  | s, e :: es =>
      let p := stp s e
      let r := runWith stp p.1 es
      (r.1, p.2 :: r.2)

def runR1 (cfg : Config) : Sess → List Ev → Sess × List (List Act) :=
  runWith (stepR1 cfg)

def runR4 : Sess → List Ev → Sess × List (List Act) :=
  runWith stepR4

/-! ## Base64 lemmas for the rev-2/4 `Buffer` round trip -/

theorem b64CharVal_valChar : ∀ n, n < 64 → b64CharVal (b64ValChar n) = some n := by
  decide

theorem b64CharVal_pad : b64CharVal '=' = none := by decide

theorem b64CharVal_lt (c : Char) (v : Nat) (h : b64CharVal c = some v) : v < 64 := by
  simp only [b64CharVal] at h
  split_ifs at h <;> simp_all <;> omega

theorem b64_decode_encode : ∀ bs : List Nat, (∀ b ∈ bs, b < 256) →
    b64decode (b64encode bs) = bs
  | [], _ => rfl
  | [x], h => by
      have hx : x < 256 := h x (by simp)
      have h1 := b64CharVal_valChar (x / 4) (by omega)
      have h2 := b64CharVal_valChar (x % 4 * 16) (by omega)
      simp [b64decode, b64encode, bytesToB64Chars, List.filterMap_cons, h1, h2,
        b64CharVal_pad, sextetsToBytes]
      omega
  | [x, y], h => by
      have hx : x < 256 := h x (by simp)
      have hy : y < 256 := h y (by simp)
      have h1 := b64CharVal_valChar (x / 4) (by omega)
      have h2 := b64CharVal_valChar (x % 4 * 16 + y / 16) (by omega)
      have h3 := b64CharVal_valChar (y % 16 * 4) (by omega)
      simp [b64decode, b64encode, bytesToB64Chars, List.filterMap_cons, h1, h2, h3,
        b64CharVal_pad, sextetsToBytes]
      omega
  | x :: y :: z :: rest, h => by
      have hx : x < 256 := h x (by simp)
      have hy : y < 256 := h y (by simp)
      have hz : z < 256 := h z (by simp)
      have ih := b64_decode_encode rest (fun b hb => h b (by simp [hb]))
      have h1 := b64CharVal_valChar (x / 4) (by omega)
      have h2 := b64CharVal_valChar (x % 4 * 16 + y / 16) (by omega)
      have h3 := b64CharVal_valChar (y % 16 * 4 + z / 64) (by omega)
      have h4 := b64CharVal_valChar (z % 64) (by omega)
      simp only [b64decode, b64encode, bytesToB64Chars, List.filterMap_cons, h1, h2,
        h3, h4, sextetsToBytes] at ih ⊢
      refine List.cons_eq_cons.mpr ⟨by omega, ?_⟩
      refine List.cons_eq_cons.mpr ⟨by omega, ?_⟩
      refine List.cons_eq_cons.mpr ⟨by omega, ?_⟩
      exact ih

theorem sextetsToBytes_lt : ∀ L : List Nat, (∀ v ∈ L, v < 64) →
    ∀ b ∈ sextetsToBytes L, b < 256
  | [], _ => by simp [sextetsToBytes]
  | [a], _ => by simp [sextetsToBytes]
  | [a, b], h => by
      have ha : a < 64 := h a (by simp)
      have hb : b < 64 := h b (by simp)
      intro w hw
      simp [sextetsToBytes] at hw
      omega
  | [a, b, c], h => by
      have ha : a < 64 := h a (by simp)
      have hb : b < 64 := h b (by simp)
      have hc : c < 64 := h c (by simp)
      intro w hw
      simp [sextetsToBytes] at hw
      rcases hw with h1 | h1 <;> omega
  | a :: b :: c :: d :: rest, h => by
      have ha : a < 64 := h a (by simp)
      have hb : b < 64 := h b (by simp)
      have hc : c < 64 := h c (by simp)
      have hd : d < 64 := h d (by simp)
      have ih := sextetsToBytes_lt rest (fun v hv => h v (by simp [hv]))
      intro w hw
      simp [sextetsToBytes] at hw
      rcases hw with h1 | h1 | h1 | h1
      · omega
      · omega
      · omega
      · exact ih w h1

theorem b64decode_lt (s : String) : ∀ b ∈ b64decode s, b < 256 := by
  apply sextetsToBytes_lt
  intro v hv
  rcases List.mem_filterMap.mp hv with ⟨c, _, hcv⟩
  exact b64CharVal_lt c v hcv

/-- Re-encoding is byte-preserving: the rev-2/4 forwarded payload decodes to
exactly the bytes of the original payload. -/
theorem b64_reencode_decode (p : String) :
    b64decode (b64encode (b64decode p)) = b64decode p :=
  b64_decode_encode (b64decode p) (b64decode_lt p)

/-! ## Helper lemmas and concrete fixtures -/

theorem string_length_pos (s : String) (h : s ≠ "") : 0 < s.length := by
  cases s with
  | mk l =>
      cases l with
      | nil => simp at h
      | cons c cs => simp [String.length]

theorem runWith_append (stp : Sess → Ev → Sess × List Act) (s : Sess)
    (l1 l2 : List Ev) :
    runWith stp s (l1 ++ l2)
      = ((runWith stp (runWith stp s l1).1 l2).1,
         (runWith stp s l1).2 ++ (runWith stp (runWith stp s l1).1 l2).2) := by
  induction l1 generalizing s with
  | nil => simp [runWith]
  | cons e es ih => simp [runWith, ih]

/-- A configuration with both AI credentials present (truthy). -/
def cfg0 : Config :=
  { ELEVENLABS_API_KEY := some "k", ELEVENLABS_AGENT_ID := some "a" }

/-- A configuration with the AI API key missing. -/
def cfgNoKey : Config :=
  { ELEVENLABS_API_KEY := none, ELEVENLABS_AGENT_ID := some "a" }

/-- A session mid-call: `start` processed (ids recorded), AI socket open. -/
def sActive : Sess :=
  { streamSid := some "MZ1", callSid := some "CA1", eleven := some .OPEN,
    twilioOpen := true, handshake := false, conversationId := .undefined }

/-- A session whose AI socket is open but whose `start` has not arrived. -/
def sNoSid : Sess :=
  { streamSid := none, callSid := none, eleven := some .OPEN,
    twilioOpen := true, handshake := false, conversationId := .undefined }

/-! ## C1 — media relay to the AI socket -/

/-- C1 (amended): while the AI socket is open, every telephony `Media` event
produces exactly one `user_audio_chunk` message on the AI socket, in arrival
order.  In rev 1 the payload string is forwarded byte-for-byte; in rev 2/4 it
is re-encoded as `Buffer.from(p, "base64").toString("base64")`, i.e. the
canonical padded base64 of the payload's bytes — equal to the original string
exactly when the original is already canonical padded base64, and always
decoding to the same byte sequence. -/
theorem C1_media_relay (cfg : Config) (s : Sess) (ps : List String)
    (h : s.eleven = some ReadyState.OPEN) :
    (runR1 cfg s (ps.map (fun p => Ev.twilioMsg (.media p)))).2
      = ps.map (fun p => [Act.sendEleven (.userAudioChunk p)])
    ∧ (runR4 s (ps.map (fun p => Ev.twilioMsg (.media p)))).2
      = ps.map (fun p => [Act.sendEleven (.userAudioChunk (b64encode (b64decode p)))])
    ∧ ∀ p ∈ ps, b64decode (b64encode (b64decode p)) = b64decode p := by
  refine ⟨?_, ?_, fun p _ => b64_reencode_decode p⟩
  · induction ps with
    | nil => rfl
    | cons p rest ih =>
        have hstep : stepR1 cfg s (Ev.twilioMsg (.media p))
            = (s, [Act.sendEleven (.userAudioChunk p)]) := by
          simp [stepR1, h]
        simp only [runR1, List.map_cons, runWith, hstep] at ih ⊢
        rw [ih]
  · induction ps with
    | nil => rfl
    | cons p rest ih =>
        have hstep : stepR4 s (Ev.twilioMsg (.media p))
            = (s, [Act.sendEleven (.userAudioChunk (b64encode (b64decode p)))]) := by
          simp [stepR4, h]
        simp only [runR4, List.map_cons, runWith, hstep] at ih ⊢
        rw [ih]

/-- C1 counterexample: in rev 2/4 the forwarded payload is not byte-for-byte
identical — the unpadded base64 payload `AAA` is forwarded as `AAA=`. -/
theorem C1_counterexample :
    (stepR4 sActive (.twilioMsg (.media "AAA"))).2
      = [Act.sendEleven (.userAudioChunk "AAA=")]
    ∧ "AAA=" ≠ "AAA" :=
  ⟨rfl, by decide⟩

theorem C1_witness :
    sActive.eleven = some ReadyState.OPEN
    ∧ ((runR1 cfg0 sActive (["AAA="].map (fun p => Ev.twilioMsg (.media p)))).2
        = ["AAA="].map (fun p => [Act.sendEleven (.userAudioChunk p)])
      ∧ (runR4 sActive (["AAA="].map (fun p => Ev.twilioMsg (.media p)))).2
        = ["AAA="].map
            (fun p => [Act.sendEleven (.userAudioChunk (b64encode (b64decode p)))])
      ∧ ∀ p ∈ ["AAA="], b64decode (b64encode (b64decode p)) = b64decode p) :=
  ⟨rfl, C1_media_relay cfg0 sActive ["AAA="] rfl⟩

/-! ## C2 — AI audio chunk relay to the telephony socket -/

/-- C2 (amended): for every AI `audio` event carrying a non-empty
`audio.chunk` string, received while `streamSid` is known (and truthy) and the
telephony socket is open, exactly one
`{event:"media", streamSid, media:{payload: chunk}}` frame is written with the
chunk unmodified, in both rev 1 and rev 2/4, and the session state is
unchanged; if `streamSid` is not yet known the event produces no write and
changes nothing (the chunk is dropped, never queued).  An empty-string chunk
falls through the truthiness test and produces no frame (see C10). -/
theorem C2_audio_chunk (cfg : Config) (s : Sess) (sid c : String)
    (hs : s.streamSid = some sid) (hsid : sid ≠ "") (ht : s.twilioOpen = true)
    (he : s.eleven ≠ none) (hc : c ≠ "") :
    stepR1 cfg s (.elevenMsg (.audio (Js.obj [("chunk", Js.str c)]) Js.undefined))
      = (s, [Act.sendTwilio (.media sid (Js.str c))])
    ∧ stepR4 s (.elevenMsg (.audio (Js.obj [("chunk", Js.str c)]) Js.undefined))
      = (s, [Act.sendTwilio (.media sid (Js.str c))])
    ∧ (∀ (s2 : Sess) (af aef : Js), s2.streamSid = none →
        stepR1 cfg s2 (.elevenMsg (.audio af aef)) = (s2, [])
        ∧ stepR4 s2 (.elevenMsg (.audio af aef)) = (s2, [])) := by
  obtain ⟨rs, hrs⟩ := Option.ne_none_iff_exists'.mp he
  have hchunk : jsGet (Js.obj [("chunk", Js.str c)]) "chunk" = Js.str c := by
    simp [jsGet]
  have htr : truthy (Js.str c) = true := by simp [truthy, hc]
  have hlen : 0 < c.length := string_length_pos c hc
  refine ⟨?_, ?_, ?_⟩
  · simp [stepR1, hrs, onElevenMsgR1, hs, hsid, ht, payloadRev1, hchunk, jsOr,
      htr, jsGet, hlen]
  · simp [stepR4, hrs, onElevenMsgR4, hs, hsid, ht, payloadRev4, hchunk, jsOr,
      htr]
  · intro s2 af aef hs2
    cases h2 : s2.eleven with
    | none => simp [stepR1, stepR4, h2, onElevenMsgR1, onElevenMsgR4, hs2]
    | some rs2 => simp [stepR1, stepR4, h2, onElevenMsgR1, onElevenMsgR4, hs2]

/-- C2 counterexample: an `audio` event whose `audio.chunk` is the empty
string, received with `streamSid` known and the telephony socket open,
produces no frame at all (JavaScript truthiness lets `""` fall through), so
"exactly one frame per AudioChunk event" fails as stated. -/
theorem C2_counterexample :
    (stepR1 cfg0 sActive
        (.elevenMsg (.audio (Js.obj [("chunk", Js.str "")]) Js.undefined))).2 = []
    ∧ (stepR4 sActive
        (.elevenMsg (.audio (Js.obj [("chunk", Js.str "")]) Js.undefined))).2 = [] :=
  ⟨rfl, rfl⟩

theorem C2_witness :
    (sActive.streamSid = some "MZ1" ∧ sActive.twilioOpen = true
      ∧ sActive.eleven ≠ none)
    ∧ (stepR1 cfg0 sActive
          (.elevenMsg (.audio (Js.obj [("chunk", Js.str "BBB=")]) Js.undefined))
        = (sActive, [Act.sendTwilio (.media "MZ1" (Js.str "BBB="))])
      ∧ stepR4 sActive
          (.elevenMsg (.audio (Js.obj [("chunk", Js.str "BBB=")]) Js.undefined))
        = (sActive, [Act.sendTwilio (.media "MZ1" (Js.str "BBB="))])
      ∧ (∀ (s2 : Sess) (af aef : Js), s2.streamSid = none →
          stepR1 cfg0 s2 (.elevenMsg (.audio af aef)) = (s2, [])
          ∧ stepR4 s2 (.elevenMsg (.audio af aef)) = (s2, []))) :=
  ⟨⟨rfl, rfl, by simp [sActive]⟩,
   C2_audio_chunk cfg0 sActive "MZ1" "BBB=" rfl (by decide) rfl
     (by simp [sActive]) (by decide)⟩

/-! ## Event classifiers and quiet-run lemmas -/

/-- Terminal events per the claim: telephony `stop`, telephony socket close,
AI socket close. -/
def isTerminalEv : Ev → Bool
  | .twilioMsg .stop => true
  | .twilioClose => true
  | .elevenClose => true
  | _ => false

def isSetupOk : Ev → Bool
  | .setupOk => true
  | _ => false

def isTwilioCloseEv : Ev → Bool
  | .twilioClose => true
  | _ => false

def isStartEv : Ev → Bool
  | .twilioMsg (.start _ _) => true
  | _ => false

theorem onElevenMsgR1_fst (s : Sess) (m : ElevenIn) :
    (onElevenMsgR1 s m).1.eleven = s.eleven ∧
    (onElevenMsgR1 s m).1.twilioOpen = s.twilioOpen := by
  cases m with
  | initMetadata cid => simp [onElevenMsgR1]
  | audio af aef =>
      rcases hss : s.streamSid with _ | sid
      · simp [onElevenMsgR1, hss]
      · simp only [onElevenMsgR1, hss]
        split_ifs with h1
        · cases hp : payloadRev1 af aef <;> simp only [hp]
          all_goals try simp
          split_ifs <;> simp
        · simp
  | interruption =>
      rcases hss : s.streamSid with _ | sid
      · simp [onElevenMsgR1, hss]
      · simp only [onElevenMsgR1, hss]
        split_ifs <;> simp
  | ping pe => simp [onElevenMsgR1]
  | agentResponse => simp [onElevenMsgR1]
  | userTranscript => simp [onElevenMsgR1]
  | errorEvent => simp [onElevenMsgR1]
  | other => simp [onElevenMsgR1]

theorem onElevenMsgR4_fst (s : Sess) (m : ElevenIn) : (onElevenMsgR4 s m).1 = s := by
  cases m with
  | audio af aef =>
      rcases hss : s.streamSid with _ | sid
      · simp [onElevenMsgR4, hss]
      · simp only [onElevenMsgR4, hss]
        split_ifs <;> rfl
  | interruption =>
      rcases hss : s.streamSid with _ | sid
      · simp [onElevenMsgR4, hss]
      · simp only [onElevenMsgR4, hss]
        split_ifs <;> rfl
  | ping pe =>
      simp only [onElevenMsgR4]
      split_ifs <;> rfl
  | initMetadata cid => rfl
  | agentResponse => rfl
  | userTranscript => rfl
  | errorEvent => rfl
  | other => rfl

/-- While no AI socket exists, every rev-2/4 event other than a successful
signed-url resolution is processed without any output and without creating
the AI socket. -/
theorem stepR4_none_quiet (s : Sess) (e : Ev) (h : s.eleven = none)
    (he : isSetupOk e = false) :
    (stepR4 s e).2 = [] ∧ (stepR4 s e).1.eleven = none := by
  cases e with
  | twilioMsg m => cases m <;> simp [stepR4, h]
  | twilioClose => simp [stepR4, h]
  | twilioError => simp [stepR4, h]
  | elevenOpen => simp [stepR4, h]
  | elevenMsg m => simp [stepR4, h]
  | elevenClose => simp [stepR4, h]
  | elevenError => simp [stepR4, h]
  | setupOk => simp [isSetupOk] at he
  | setupFail => simp [stepR4, h]

theorem runR4_none_quiet (evts : List Ev) : ∀ s : Sess,
    evts.all (fun e => !isSetupOk e) = true → s.eleven = none →
    (runR4 s evts).2 = evts.map (fun _ => ([] : List Act))
    ∧ (runR4 s evts).1.eleven = none := by
  induction evts with
  | nil => intro s _ h; exact ⟨rfl, h⟩
  | cons e es ih =>
      intro s hall h
      rw [List.all_cons, Bool.and_eq_true] at hall
      have h1 : isSetupOk e = false := by simpa using hall.1
      obtain ⟨ho, hn⟩ := stepR4_none_quiet s e h h1
      obtain ⟨iho, ihn⟩ := ih (stepR4 s e).1 hall.2 hn
      simp only [runR4, runWith, List.map_cons] at iho ihn ⊢
      exact ⟨by rw [ho, iho], ihn⟩

theorem stepR4_twilioOpen (s : Sess) (e : Ev) (he : isTwilioCloseEv e = false) :
    (stepR4 s e).1.twilioOpen = s.twilioOpen := by
  cases e with
  | twilioMsg m => cases m <;> simp only [stepR4] <;> split_ifs <;> rfl
  | twilioClose => simp [isTwilioCloseEv] at he
  | twilioError => rfl
  | elevenOpen => rcases h : s.eleven with _ | rs <;> simp [stepR4, h]
  | elevenMsg m =>
      rcases h : s.eleven with _ | rs <;>
        simp [stepR4, h, onElevenMsgR4_fst]
  | elevenClose => rcases h : s.eleven with _ | rs <;> simp [stepR4, h]
  | elevenError => rfl
  | setupOk => simp only [stepR4]; split_ifs <;> rfl
  | setupFail => rfl

theorem runR4_twilioOpen (evts : List Ev) : ∀ s : Sess,
    evts.all (fun e => !isTwilioCloseEv e) = true →
    (runR4 s evts).1.twilioOpen = s.twilioOpen := by
  induction evts with
  | nil => intro s _; rfl
  | cons e es ih =>
      intro s hall
      rw [List.all_cons, Bool.and_eq_true] at hall
      have h1 : isTwilioCloseEv e = false := by simpa using hall.1
      have ihr := ih (stepR4 s e).1 hall.2
      simp only [runR4, runWith] at ihr ⊢
      rw [ihr, stepR4_twilioOpen s e h1]

/-- While no AI socket exists, every rev-1 event other than a telephony
`start` is processed without any output and without creating the AI socket. -/
theorem stepR1_none_quiet (cfg : Config) (s : Sess) (e : Ev) (h : s.eleven = none)
    (he : isStartEv e = false) :
    (stepR1 cfg s e).2 = [] ∧ (stepR1 cfg s e).1.eleven = none := by
  cases e with
  | twilioMsg m =>
      cases m with
      | start sid cid => simp [isStartEv] at he
      | connected => simp [stepR1, h]
      | media p => simp [stepR1, h]
      | stop => simp [stepR1, h]
      | other => simp [stepR1, h]
  | twilioClose => simp [stepR1, h]
  | twilioError => simp [stepR1, h]
  | elevenOpen => simp [stepR1, h]
  | elevenMsg m => simp [stepR1, h]
  | elevenClose => simp [stepR1, h]
  | elevenError => simp [stepR1, h]
  | setupOk => simp [stepR1, h]
  | setupFail => simp [stepR1, h]

theorem runR1_none_quiet (cfg : Config) (evts : List Ev) : ∀ s : Sess,
    evts.all (fun e => !isStartEv e) = true → s.eleven = none →
    (runR1 cfg s evts).2 = evts.map (fun _ => ([] : List Act))
    ∧ (runR1 cfg s evts).1.eleven = none := by
  induction evts with
  | nil => intro s _ h; exact ⟨rfl, h⟩
  | cons e es ih =>
      intro s hall h
      rw [List.all_cons, Bool.and_eq_true] at hall
      have h1 : isStartEv e = false := by simpa using hall.1
      obtain ⟨ho, hn⟩ := stepR1_none_quiet cfg s e h h1
      obtain ⟨iho, ihn⟩ := ih (stepR1 cfg s e).1 hall.2 hn
      simp only [runR1, runWith, List.map_cons] at iho ihn ⊢
      exact ⟨by rw [ho, iho], ihn⟩

/-- A terminal event hitting a session whose AI socket is not `OPEN` performs
no call and cannot re-open the AI socket. -/
theorem stepR1_terminal_quiet (cfg : Config) (s : Sess) (e : Ev)
    (he : isTerminalEv e = true) (h : s.eleven ≠ some ReadyState.OPEN) :
    (stepR1 cfg s e).2 = [] ∧ (stepR1 cfg s e).1.eleven ≠ some ReadyState.OPEN := by
  cases e with
  | twilioMsg m =>
      cases m with
      | stop => simp [stepR1, h]
      | connected => simp [isTerminalEv] at he
      | start sid cid => simp [isTerminalEv] at he
      | media p => simp [isTerminalEv] at he
      | other => simp [isTerminalEv] at he
  | twilioClose => simp [stepR1, h]
  | elevenClose => rcases hh : s.eleven with _ | rs <;> simp [stepR1, hh]
  | twilioError => simp [isTerminalEv] at he
  | elevenOpen => simp [isTerminalEv] at he
  | elevenMsg m => simp [isTerminalEv] at he
  | elevenError => simp [isTerminalEv] at he
  | setupOk => simp [isTerminalEv] at he
  | setupFail => simp [isTerminalEv] at he

theorem stepR4_terminal_quiet (s : Sess) (e : Ev)
    (he : isTerminalEv e = true) (h : s.eleven ≠ some ReadyState.OPEN) :
    (stepR4 s e).2 = [] ∧ (stepR4 s e).1.eleven ≠ some ReadyState.OPEN := by
  cases e with
  | twilioMsg m =>
      cases m with
      | stop => simp [stepR4, h]
      | connected => simp [isTerminalEv] at he
      | start sid cid => simp [isTerminalEv] at he
      | media p => simp [isTerminalEv] at he
      | other => simp [isTerminalEv] at he
  | twilioClose => simp [stepR4, h]
  | elevenClose => rcases hh : s.eleven with _ | rs <;> simp [stepR4, hh]
  | twilioError => simp [isTerminalEv] at he
  | elevenOpen => simp [isTerminalEv] at he
  | elevenMsg m => simp [isTerminalEv] at he
  | elevenError => simp [isTerminalEv] at he
  | setupOk => simp [isTerminalEv] at he
  | setupFail => simp [isTerminalEv] at he

theorem runR1_terminal_quiet (cfg : Config) (evts : List Ev) : ∀ s : Sess,
    evts.all isTerminalEv = true → s.eleven ≠ some ReadyState.OPEN →
    (runR1 cfg s evts).2.flatten = [] := by
  induction evts with
  | nil => intro s _ _; rfl
  | cons e es ih =>
      intro s hall h
      rw [List.all_cons, Bool.and_eq_true] at hall
      obtain ⟨ho, hn⟩ := stepR1_terminal_quiet cfg s e hall.1 h
      have ihr := ih (stepR1 cfg s e).1 hall.2 hn
      simp only [runR1, runWith, List.flatten_cons] at ihr ⊢
      rw [ho, ihr]
      rfl

theorem runR4_terminal_quiet (evts : List Ev) : ∀ s : Sess,
    evts.all isTerminalEv = true → s.eleven ≠ some ReadyState.OPEN →
    (runR4 s evts).2.flatten = [] := by
  induction evts with
  | nil => intro s _ _; rfl
  | cons e es ih =>
      intro s hall h
      rw [List.all_cons, Bool.and_eq_true] at hall
      obtain ⟨ho, hn⟩ := stepR4_terminal_quiet s e hall.1 h
      have ihr := ih (stepR4 s e).1 hall.2 hn
      simp only [runR4, runWith, List.flatten_cons] at ihr ⊢
      rw [ho, ihr]
      rfl

/-! ## Close-at-most-once lemmas -/

theorem closeOnceR1 (cfg : Config) (evts : List Ev) (s : Sess)
    (hall : evts.all isTerminalEv = true) :
    ((runR1 cfg s evts).2.flatten.filter isCloseEleven).length ≤ 1
    ∧ ∀ a ∈ (runR1 cfg s evts).2.flatten, a = Act.closeEleven := by
  by_cases hopen : s.eleven = some ReadyState.OPEN
  · cases evts with
    | nil => simp [runR1, runWith]
    | cons e es =>
        rw [List.all_cons, Bool.and_eq_true] at hall
        cases e with
        | twilioMsg m =>
            cases m with
            | stop =>
                have hstep : stepR1 cfg s (.twilioMsg .stop)
                    = ({ s with eleven := some .CLOSING }, [Act.closeEleven]) := by
                  simp [stepR1, hopen]
                have hq := runR1_terminal_quiet cfg es
                  ({ s with eleven := some .CLOSING }) hall.2 (by simp)
                simp only [runR1] at hq ⊢
                simp [runWith, hstep, hq, isCloseEleven]
            | connected => exact absurd hall.1 (by simp [isTerminalEv])
            | start sid cid => exact absurd hall.1 (by simp [isTerminalEv])
            | media p => exact absurd hall.1 (by simp [isTerminalEv])
            | other => exact absurd hall.1 (by simp [isTerminalEv])
        | twilioClose =>
            have hstep : stepR1 cfg s .twilioClose
                = ({ s with twilioOpen := false, eleven := some .CLOSING },
                   [Act.closeEleven]) := by
              simp [stepR1, hopen]
            have hq := runR1_terminal_quiet cfg es
              ({ s with twilioOpen := false, eleven := some .CLOSING })
              hall.2 (by simp)
            simp only [runR1] at hq ⊢
            simp [runWith, hstep, hq, isCloseEleven]
        | elevenClose =>
            have hstep : stepR1 cfg s .elevenClose
                = ({ s with eleven := none }, []) := by
              simp [stepR1, hopen]
            have hq := runR1_terminal_quiet cfg es
              ({ s with eleven := none }) hall.2 (by simp)
            simp only [runR1] at hq ⊢
            simp [runWith, hstep, hq]
        | twilioError => exact absurd hall.1 (by simp [isTerminalEv])
        | elevenOpen => exact absurd hall.1 (by simp [isTerminalEv])
        | elevenMsg m => exact absurd hall.1 (by simp [isTerminalEv])
        | elevenError => exact absurd hall.1 (by simp [isTerminalEv])
        | setupOk => exact absurd hall.1 (by simp [isTerminalEv])
        | setupFail => exact absurd hall.1 (by simp [isTerminalEv])
  · have hq := runR1_terminal_quiet cfg evts s hall hopen
    simp [hq]

theorem closeOnceR4 (evts : List Ev) (s : Sess)
    (hall : evts.all isTerminalEv = true) :
    ((runR4 s evts).2.flatten.filter isCloseEleven).length ≤ 1
    ∧ ∀ a ∈ (runR4 s evts).2.flatten, a = Act.closeEleven := by
  by_cases hopen : s.eleven = some ReadyState.OPEN
  · cases evts with
    | nil => simp [runR4, runWith]
    | cons e es =>
        rw [List.all_cons, Bool.and_eq_true] at hall
        cases e with
        | twilioMsg m =>
            cases m with
            | stop =>
                have hstep : stepR4 s (.twilioMsg .stop)
                    = ({ s with eleven := some .CLOSING }, [Act.closeEleven]) := by
                  simp [stepR4, hopen]
                have hq := runR4_terminal_quiet es
                  ({ s with eleven := some .CLOSING }) hall.2 (by simp)
                simp only [runR4] at hq ⊢
                simp [runWith, hstep, hq, isCloseEleven]
            | connected => exact absurd hall.1 (by simp [isTerminalEv])
            | start sid cid => exact absurd hall.1 (by simp [isTerminalEv])
            | media p => exact absurd hall.1 (by simp [isTerminalEv])
            | other => exact absurd hall.1 (by simp [isTerminalEv])
        | twilioClose =>
            have hstep : stepR4 s .twilioClose
                = ({ s with twilioOpen := false, eleven := some .CLOSING },
                   [Act.closeEleven]) := by
              simp [stepR4, hopen]
            have hq := runR4_terminal_quiet es
              ({ s with twilioOpen := false, eleven := some .CLOSING })
              hall.2 (by simp)
            simp only [runR4] at hq ⊢
            simp [runWith, hstep, hq, isCloseEleven]
        | elevenClose =>
            have hstep : stepR4 s .elevenClose
                = ({ s with eleven := none }, []) := by
              simp [stepR4, hopen]
            have hq := runR4_terminal_quiet es
              ({ s with eleven := none }) hall.2 (by simp)
            simp only [runR4] at hq ⊢
            simp [runWith, hstep, hq]
        | twilioError => exact absurd hall.1 (by simp [isTerminalEv])
        | elevenOpen => exact absurd hall.1 (by simp [isTerminalEv])
        | elevenMsg m => exact absurd hall.1 (by simp [isTerminalEv])
        | elevenError => exact absurd hall.1 (by simp [isTerminalEv])
        | setupOk => exact absurd hall.1 (by simp [isTerminalEv])
        | setupFail => exact absurd hall.1 (by simp [isTerminalEv])
  · have hq := runR4_terminal_quiet evts s hall hopen
    simp [hq]

/-! ## C3 — AI-side setup failure -/

/-- C3 (amended): if the AI-side setup fails (missing `ELEVENLABS_API_KEY` or
`ELEVENLABS_AGENT_ID`, in which case `setupElevenLabs` returns before issuing
the signed-url request, or the signed-url request fails, so that no successful
resolution ever arrives), then no AI socket is ever created, the session
performs no call at all — in particular no `PlayAudio` or `ClearBuffer` is
ever written to the telephony socket — and the coordinator does not close the
telephony socket: it stays open until the telephony peer itself closes it. -/
theorem C3_ai_setup_failure (cfg : Config) (s : Sess) (evts : List Ev)
    (h : s.eleven = none)
    (hok : evts.all (fun e => !isSetupOk e) = true) :
    (runR4 s evts).2 = evts.map (fun _ => ([] : List Act))
    ∧ (runR4 s evts).1.eleven = none
    ∧ (evts.all (fun e => !isTwilioCloseEv e) = true →
        (runR4 s evts).1.twilioOpen = s.twilioOpen)
    ∧ ((envTruthy cfg.ELEVENLABS_API_KEY && envTruthy cfg.ELEVENLABS_AGENT_ID)
          = false →
        initR4 cfg = (initSess, [])) := by
  obtain ⟨ho, hn⟩ := runR4_none_quiet evts s hok h
  refine ⟨ho, hn, fun hcl => runR4_twilioOpen evts s hcl, fun hc => ?_⟩
  have hguard : (!envTruthy cfg.ELEVENLABS_API_KEY
      || !envTruthy cfg.ELEVENLABS_AGENT_ID) = true := by
    rw [← Bool.not_and, hc]
    rfl
  simp [initR4, setupElevenLabs, hguard]

/-- C3 counterexample: with the AI API key missing, `setupElevenLabs` returns
without doing anything; the session then processes `start` and `stop` with no
output whatever, and at the end of the trace the telephony socket is still
open — the coordinator never closes it, contradicting "telephony socket closed
by the coordinator". -/
theorem C3_counterexample :
    (initR4 cfgNoKey).2 = []
    ∧ (runR4 (initR4 cfgNoKey).1
        [Ev.twilioMsg (.start "MZ1" "CA1"), Ev.twilioMsg .stop]).2 = [[], []]
    ∧ (runR4 (initR4 cfgNoKey).1
        [Ev.twilioMsg (.start "MZ1" "CA1"), Ev.twilioMsg .stop]).1.twilioOpen
        = true :=
  ⟨rfl, rfl, rfl⟩

theorem C3_witness :
    (initSess.eleven = none
      ∧ ([Ev.twilioMsg (.start "MZ1" "CA1"), Ev.setupFail,
          Ev.twilioMsg (.media "AAA="), Ev.twilioMsg .stop].all
            (fun e => !isSetupOk e) = true))
    ∧ ((runR4 initSess
          [Ev.twilioMsg (.start "MZ1" "CA1"), Ev.setupFail,
           Ev.twilioMsg (.media "AAA="), Ev.twilioMsg .stop]).2
        = [Ev.twilioMsg (.start "MZ1" "CA1"), Ev.setupFail,
           Ev.twilioMsg (.media "AAA="), Ev.twilioMsg .stop].map
            (fun _ => ([] : List Act))
      ∧ (runR4 initSess
          [Ev.twilioMsg (.start "MZ1" "CA1"), Ev.setupFail,
           Ev.twilioMsg (.media "AAA="), Ev.twilioMsg .stop]).1.eleven = none
      ∧ ([Ev.twilioMsg (.start "MZ1" "CA1"), Ev.setupFail,
          Ev.twilioMsg (.media "AAA="), Ev.twilioMsg .stop].all
            (fun e => !isTwilioCloseEv e) = true →
          (runR4 initSess
            [Ev.twilioMsg (.start "MZ1" "CA1"), Ev.setupFail,
             Ev.twilioMsg (.media "AAA="), Ev.twilioMsg .stop]).1.twilioOpen
            = initSess.twilioOpen)
      ∧ ((envTruthy cfgNoKey.ELEVENLABS_API_KEY
            && envTruthy cfgNoKey.ELEVENLABS_AGENT_ID) = false →
          initR4 cfgNoKey = (initSess, []))) :=
  ⟨⟨rfl, by decide⟩,
   C3_ai_setup_failure cfgNoKey initSess
     [Ev.twilioMsg (.start "MZ1" "CA1"), Ev.setupFail,
      Ev.twilioMsg (.media "AAA="), Ev.twilioMsg .stop] rfl (by decide)⟩

/-! ## C4 — duplicate Start -/

/-- C4 (amended): a second `start` on the same socket is not treated as a
protocol violation: the handler unconditionally overwrites the stored
`streamSid` and `callSid` and the session continues — no socket is closed.
In rev 1 the `start` case additionally calls `connectElevenLabs()` again,
replacing the AI socket reference by a fresh connecting socket. -/
theorem C4_second_start_overwrites (cfg : Config) (s : Sess) (sid2 cid2 : String)
    (hk : envTruthy cfg.ELEVENLABS_API_KEY = true)
    (ha : envTruthy cfg.ELEVENLABS_AGENT_ID = true) :
    stepR4 s (.twilioMsg (.start sid2 cid2))
      = ({ s with streamSid := some sid2, callSid := some cid2 }, [])
    ∧ stepR1 cfg s (.twilioMsg (.start sid2 cid2))
      = ({ s with
            streamSid := some sid2, callSid := some cid2,
            eleven := some .CONNECTING }, [Act.connectEleven]) := by
  constructor
  · simp [stepR4]
  · simp [stepR1, connectElevenLabs, hk, ha]

/-- C4 counterexample: two `start` events on the same socket; the second one
overwrites `streamSid` to `MZ2`, produces no close of either socket, and the
session continues with the AI socket still open — no teardown. -/
theorem C4_counterexample :
    (runR4 { initSess with eleven := some .OPEN }
        [Ev.twilioMsg (.start "MZ1" "CA1"), Ev.twilioMsg (.start "MZ2" "CA2")]).2
      = [[], []]
    ∧ (runR4 { initSess with eleven := some .OPEN }
        [Ev.twilioMsg (.start "MZ1" "CA1"),
         Ev.twilioMsg (.start "MZ2" "CA2")]).1.streamSid = some "MZ2"
    ∧ (runR4 { initSess with eleven := some .OPEN }
        [Ev.twilioMsg (.start "MZ1" "CA1"),
         Ev.twilioMsg (.start "MZ2" "CA2")]).1.eleven = some ReadyState.OPEN :=
  ⟨rfl, rfl, rfl⟩

theorem C4_witness :
    (envTruthy cfg0.ELEVENLABS_API_KEY = true
      ∧ envTruthy cfg0.ELEVENLABS_AGENT_ID = true)
    ∧ (stepR4 sActive (.twilioMsg (.start "MZ2" "CA2"))
        = ({ sActive with streamSid := some "MZ2", callSid := some "CA2" }, [])
      ∧ stepR1 cfg0 sActive (.twilioMsg (.start "MZ2" "CA2"))
        = ({ sActive with
              streamSid := some "MZ2", callSid := some "CA2",
              eleven := some .CONNECTING }, [Act.connectEleven])) :=
  ⟨⟨rfl, rfl⟩, C4_second_start_overwrites cfg0 sActive "MZ2" "CA2" rfl rfl⟩

/-! ## C5 — close at most once -/

/-- C5: for every session state and every interleaving of the terminal events
(telephony `stop`, telephony socket close, AI socket close), the only call the
bridge makes is `elevenWs.close()`, and it is made at most once: the first
close moves `readyState` off `OPEN`, so every later guard
`elevenWs && elevenWs.readyState === WebSocket.OPEN` fails.  The telephony
socket is never closed by the bridge at all (no such call site exists), so it
too is closed at most zero times by this code.  Holds for rev 1 and rev 2/4. -/
theorem C5_close_at_most_once (cfg : Config) (s : Sess) (evts : List Ev)
    (h : evts.all isTerminalEv = true) :
    (((runR1 cfg s evts).2.flatten.filter isCloseEleven).length ≤ 1
      ∧ ∀ a ∈ (runR1 cfg s evts).2.flatten, a = Act.closeEleven)
    ∧ (((runR4 s evts).2.flatten.filter isCloseEleven).length ≤ 1
      ∧ ∀ a ∈ (runR4 s evts).2.flatten, a = Act.closeEleven) :=
  ⟨closeOnceR1 cfg evts s h, closeOnceR4 evts s h⟩

theorem C5_witness :
    ([Ev.twilioMsg .stop, Ev.twilioClose, Ev.elevenClose].all isTerminalEv
        = true)
    ∧ ((((runR1 cfg0 sActive
            [Ev.twilioMsg .stop, Ev.twilioClose, Ev.elevenClose]).2.flatten.filter
              isCloseEleven).length ≤ 1
        ∧ ∀ a ∈ (runR1 cfg0 sActive
            [Ev.twilioMsg .stop, Ev.twilioClose, Ev.elevenClose]).2.flatten,
            a = Act.closeEleven)
      ∧ (((runR4 sActive
            [Ev.twilioMsg .stop, Ev.twilioClose, Ev.elevenClose]).2.flatten.filter
              isCloseEleven).length ≤ 1
        ∧ ∀ a ∈ (runR4 sActive
            [Ev.twilioMsg .stop, Ev.twilioClose, Ev.elevenClose]).2.flatten,
            a = Act.closeEleven)) :=
  ⟨rfl, C5_close_at_most_once cfg0 sActive
    [Ev.twilioMsg .stop, Ev.twilioClose, Ev.elevenClose] rfl⟩

/-! ## C6 — AI socket drop mid-call -/

/-- C6 (amended): if the AI socket closes mid-call the handler only clears the
`elevenWs` reference, and if it errors the handler only logs: no teardown
happens.  The telephony socket stays open (the coordinator never closes it)
and subsequent telephony `media` events are silently discarded, so the call
continues without AI audio until the telephony side itself ends it. -/
theorem C6_ai_drop_not_teardown (cfg : Config) (s : Sess) (rs : ReadyState)
    (h : s.eleven = some rs) (ht : s.twilioOpen = true) :
    stepR1 cfg s .elevenClose = ({ s with eleven := none }, [])
    ∧ stepR1 cfg s .elevenError = (s, [])
    ∧ stepR4 s .elevenClose = ({ s with eleven := none }, [])
    ∧ stepR4 s .elevenError = (s, [])
    ∧ (stepR1 cfg s .elevenClose).1.twilioOpen = true
    ∧ (∀ p, (stepR1 cfg ({ s with eleven := none }) (.twilioMsg (.media p))).2
        = [])
    ∧ (∀ p, (stepR4 ({ s with eleven := none }) (.twilioMsg (.media p))).2
        = []) := by
  refine ⟨by simp [stepR1, h], rfl, by simp [stepR4, h], rfl, ?_, ?_, ?_⟩
  · simp [stepR1, h, ht]
  · intro p
    simp [stepR1]
  · intro p
    simp [stepR4]

/-- C6 counterexample: AI socket closes while the call is active, then a media
frame arrives; nothing is written, nothing is closed, and the telephony socket
is still open at the end — the session is not torn down, the caller's audio is
silently discarded. -/
theorem C6_counterexample :
    (runR1 cfg0 sActive [Ev.elevenClose, Ev.twilioMsg (.media "AAA=")]).2
      = [[], []]
    ∧ (runR1 cfg0 sActive
        [Ev.elevenClose, Ev.twilioMsg (.media "AAA=")]).1.twilioOpen = true
    ∧ (runR1 cfg0 sActive
        [Ev.elevenClose, Ev.twilioMsg (.media "AAA=")]).1.eleven = none :=
  ⟨rfl, rfl, rfl⟩

theorem C6_witness :
    (sActive.eleven = some ReadyState.OPEN ∧ sActive.twilioOpen = true)
    ∧ (stepR1 cfg0 sActive .elevenClose = ({ sActive with eleven := none }, [])
      ∧ stepR1 cfg0 sActive .elevenError = (sActive, [])
      ∧ stepR4 sActive .elevenClose = ({ sActive with eleven := none }, [])
      ∧ stepR4 sActive .elevenError = (sActive, [])
      ∧ (stepR1 cfg0 sActive .elevenClose).1.twilioOpen = true
      ∧ (∀ p, (stepR1 cfg0 ({ sActive with eleven := none })
          (.twilioMsg (.media p))).2 = [])
      ∧ (∀ p, (stepR4 ({ sActive with eleven := none })
          (.twilioMsg (.media p))).2 = [])) :=
  ⟨⟨rfl, rfl⟩, C6_ai_drop_not_teardown cfg0 sActive ReadyState.OPEN rfl rfl⟩

/-! ## C9 — lazy connect -/

/-- C9 (amended): in rev 1 the AI connection really is lazy: from any state
with no AI socket, processing any event sequence containing no `start` leaves
the AI socket absent and performs no call whatever, so the connection is
initiated only by processing `start`.  In rev 2/4 this fails:
`setupElevenLabs()` runs at connection accept, so with credentials present the
signed-url handshake is issued before any `start` is observed, and its
resolution opens the AI socket while `streamSid` is still unset. -/
theorem C9_lazy_connect (cfg : Config) (s : Sess) (evts : List Ev)
    (h : s.eleven = none)
    (hns : evts.all (fun e => !isStartEv e) = true) :
    ((runR1 cfg s evts).2 = evts.map (fun _ => ([] : List Act))
      ∧ (runR1 cfg s evts).1.eleven = none)
    ∧ ((envTruthy cfg.ELEVENLABS_API_KEY && envTruthy cfg.ELEVENLABS_AGENT_ID)
          = true →
        (initR4 cfg).2 = [Act.requestSignedUrl]
        ∧ (initR4 cfg).1.streamSid = none
        ∧ stepR4 (initR4 cfg).1 .setupOk
            = ({ initSess with eleven := some .CONNECTING },
               [Act.connectEleven])) := by
  refine ⟨runR1_none_quiet cfg evts s hns h, fun hcred => ?_⟩
  rw [Bool.and_eq_true] at hcred
  refine ⟨?_, ?_, ?_⟩ <;>
    simp [initR4, setupElevenLabs, stepR4, initSess, hcred.1, hcred.2]

/-- C9 counterexample: in rev 2/4 with credentials present, the signed-url
request is issued at connection accept — before any event, in particular
before any `start` — and its successful resolution creates the AI socket while
`streamSid` is still unset. -/
theorem C9_counterexample :
    (initR4 cfg0).2 = [Act.requestSignedUrl]
    ∧ (initR4 cfg0).1.streamSid = none
    ∧ (runR4 (initR4 cfg0).1 [Ev.setupOk]).1.eleven = some ReadyState.CONNECTING
    ∧ (runR4 (initR4 cfg0).1 [Ev.setupOk]).1.streamSid = none :=
  ⟨rfl, rfl, rfl, rfl⟩

theorem C9_witness :
    (initSess.eleven = none
      ∧ ([Ev.twilioMsg .connected, Ev.twilioMsg (.media "AAA="),
          Ev.twilioMsg .stop].all (fun e => !isStartEv e) = true))
    ∧ (((runR1 cfg0 initSess
          [Ev.twilioMsg .connected, Ev.twilioMsg (.media "AAA="),
           Ev.twilioMsg .stop]).2
        = [Ev.twilioMsg .connected, Ev.twilioMsg (.media "AAA="),
           Ev.twilioMsg .stop].map (fun _ => ([] : List Act))
      ∧ (runR1 cfg0 initSess
          [Ev.twilioMsg .connected, Ev.twilioMsg (.media "AAA="),
           Ev.twilioMsg .stop]).1.eleven = none)
      ∧ ((envTruthy cfg0.ELEVENLABS_API_KEY
            && envTruthy cfg0.ELEVENLABS_AGENT_ID) = true →
          (initR4 cfg0).2 = [Act.requestSignedUrl]
          ∧ (initR4 cfg0).1.streamSid = none
          ∧ stepR4 (initR4 cfg0).1 .setupOk
              = ({ initSess with eleven := some .CONNECTING },
                 [Act.connectEleven]))) :=
  ⟨⟨rfl, by decide⟩,
   C9_lazy_connect cfg0 initSess
     [Ev.twilioMsg .connected, Ev.twilioMsg (.media "AAA="), Ev.twilioMsg .stop]
     rfl (by decide)⟩

/-! ## Provenance of telephony media writes (no buffering) -/

/-- Every `PlayAudio` frame a rev-1 handler firing writes carries the payload
selected from that very firing's `audio` event: there is no queue that could
replay an earlier chunk. -/
theorem mediaProvenanceR1 (cfg : Config) (s : Sess) (e : Ev) (sid : String)
    (p : Js) (hmem : Act.sendTwilio (.media sid p) ∈ (stepR1 cfg s e).2) :
    ∃ af aef, e = .elevenMsg (.audio af aef) ∧ p = payloadRev1 af aef := by
  cases e with
  | twilioMsg m =>
      cases m with
      | start sid2 cid2 =>
          simp only [stepR1, connectElevenLabs] at hmem
          split_ifs at hmem <;> simp at hmem
      | media p2 =>
          simp only [stepR1] at hmem
          split_ifs at hmem <;> simp at hmem
      | stop =>
          simp only [stepR1] at hmem
          split_ifs at hmem <;> simp at hmem
      | connected => simp [stepR1] at hmem
      | other => simp [stepR1] at hmem
  | twilioClose =>
      simp only [stepR1] at hmem
      split_ifs at hmem <;> simp at hmem
  | twilioError => simp [stepR1] at hmem
  | elevenOpen =>
      rcases h : s.eleven with _ | rs <;> simp [stepR1, h] at hmem
  | elevenClose =>
      rcases h : s.eleven with _ | rs <;> simp [stepR1, h] at hmem
  | elevenError => simp [stepR1] at hmem
  | setupOk => simp [stepR1] at hmem
  | setupFail => simp [stepR1] at hmem
  | elevenMsg m =>
      rcases h : s.eleven with _ | rs
      · simp [stepR1, h] at hmem
      · simp only [stepR1, h] at hmem
        cases m with
        | audio af aef =>
            refine ⟨af, aef, rfl, ?_⟩
            simp only [onElevenMsgR1] at hmem
            rcases hss : s.streamSid with _ | sid2
            · simp only [hss] at hmem
              simp at hmem
            · simp only [hss] at hmem
              split_ifs at hmem with hg
              · rcases hp : payloadRev1 af aef with _ | b | n | t | t | fs <;>
                  simp only [hp] at hmem
                case pos.str =>
                  split_ifs at hmem with hlen
                  · simp at hmem
                    exact hmem.2
                  · simp at hmem
                all_goals simp at hmem
              · simp at hmem
        | initMetadata cid => simp [onElevenMsgR1] at hmem
        | interruption =>
            simp only [onElevenMsgR1] at hmem
            rcases hss : s.streamSid with _ | sid2 <;> simp only [hss] at hmem
            · simp at hmem
            · split_ifs at hmem <;> simp at hmem
        | ping pe => simp [onElevenMsgR1] at hmem
        | agentResponse => simp [onElevenMsgR1] at hmem
        | userTranscript => simp [onElevenMsgR1] at hmem
        | errorEvent => simp [onElevenMsgR1] at hmem
        | other => simp [onElevenMsgR1] at hmem

/-- Rev-2/4 counterpart of `mediaProvenanceR1`. -/
theorem mediaProvenanceR4 (s : Sess) (e : Ev) (sid : String)
    (p : Js) (hmem : Act.sendTwilio (.media sid p) ∈ (stepR4 s e).2) :
    ∃ af aef, e = .elevenMsg (.audio af aef) ∧ p = payloadRev4 af aef := by
  cases e with
  | twilioMsg m =>
      cases m with
      | start sid2 cid2 => simp [stepR4] at hmem
      | media p2 =>
          simp only [stepR4] at hmem
          split_ifs at hmem <;> simp at hmem
      | stop =>
          simp only [stepR4] at hmem
          split_ifs at hmem <;> simp at hmem
      | connected => simp [stepR4] at hmem
      | other => simp [stepR4] at hmem
  | twilioClose =>
      simp only [stepR4] at hmem
      split_ifs at hmem <;> simp at hmem
  | twilioError => simp [stepR4] at hmem
  | elevenOpen =>
      rcases h : s.eleven with _ | rs <;> simp [stepR4, h] at hmem
  | elevenClose =>
      rcases h : s.eleven with _ | rs <;> simp [stepR4, h] at hmem
  | elevenError => simp [stepR4] at hmem
  | setupOk =>
      simp only [stepR4] at hmem
      split_ifs at hmem <;> simp at hmem
  | setupFail => simp [stepR4] at hmem
  | elevenMsg m =>
      rcases h : s.eleven with _ | rs
      · simp [stepR4, h] at hmem
      · simp only [stepR4, h] at hmem
        cases m with
        | audio af aef =>
            refine ⟨af, aef, rfl, ?_⟩
            simp only [onElevenMsgR4] at hmem
            rcases hss : s.streamSid with _ | sid2
            · simp only [hss] at hmem
              simp at hmem
            · simp only [hss] at hmem
              split_ifs at hmem with hg htr
              · simp at hmem
                exact hmem.2
              · simp at hmem
              · simp at hmem
        | initMetadata cid => simp [onElevenMsgR4] at hmem
        | interruption =>
            simp only [onElevenMsgR4] at hmem
            rcases hss : s.streamSid with _ | sid2 <;> simp only [hss] at hmem
            · simp at hmem
            · split_ifs at hmem <;> simp at hmem
        | ping pe =>
            simp only [onElevenMsgR4] at hmem
            split_ifs at hmem <;> simp at hmem
        | agentResponse => simp [onElevenMsgR4] at hmem
        | userTranscript => simp [onElevenMsgR4] at hmem
        | errorEvent => simp [onElevenMsgR4] at hmem
        | other => simp [onElevenMsgR4] at hmem

/-! ## C7 — interruption and barge-in -/

/-- C7 (amended): every `interruption` event received while `streamSid` is
known (truthy) and the telephony socket is open yields exactly one
`{event:"clear", streamSid}` frame, in rev 1 and rev 2/4; and since no audio
is ever buffered, every `PlayAudio` frame written after the interruption
originates from an `audio` event processed after it (each firing's `PlayAudio`
carries the payload selected from that firing's own event), so no `PlayAudio`
written after the interruption carries a chunk received before it.  When
`streamSid` is unknown or the socket closed, no `ClearBuffer` is emitted. -/
theorem C7_interruption_clear (cfg : Config) (s : Sess) (sid : String)
    (hs : s.streamSid = some sid) (hsid : sid ≠ "") (ht : s.twilioOpen = true)
    (he : s.eleven ≠ none) :
    (stepR1 cfg s (.elevenMsg .interruption)).2 = [Act.sendTwilio (.clear sid)]
    ∧ (stepR4 s (.elevenMsg .interruption)).2 = [Act.sendTwilio (.clear sid)]
    ∧ (∀ (s2 : Sess) (e : Ev) (sid2 : String) (p : Js),
        Act.sendTwilio (.media sid2 p) ∈ (stepR1 cfg s2 e).2 →
        ∃ af aef, e = .elevenMsg (.audio af aef) ∧ p = payloadRev1 af aef)
    ∧ (∀ (s2 : Sess) (e : Ev) (sid2 : String) (p : Js),
        Act.sendTwilio (.media sid2 p) ∈ (stepR4 s2 e).2 →
        ∃ af aef, e = .elevenMsg (.audio af aef) ∧ p = payloadRev4 af aef) := by
  obtain ⟨rs, hrs⟩ := Option.ne_none_iff_exists'.mp he
  refine ⟨?_, ?_, fun s2 e sid2 p hm => mediaProvenanceR1 cfg s2 e sid2 p hm,
    fun s2 e sid2 p hm => mediaProvenanceR4 s2 e sid2 p hm⟩
  · simp [stepR1, hrs, onElevenMsgR1, hs, hsid, ht]
  · simp [stepR4, hrs, onElevenMsgR4, hs, hsid, ht]

/-- C7 counterexample: an `interruption` received before `start` (no
`streamSid` yet, AI socket open) produces no `ClearBuffer` at all, so "every
Interruption event is followed by exactly one ClearBuffer" fails as stated. -/
theorem C7_counterexample :
    (stepR1 cfg0 sNoSid (.elevenMsg .interruption)).2 = []
    ∧ (stepR4 sNoSid (.elevenMsg .interruption)).2 = [] :=
  ⟨rfl, rfl⟩

theorem C7_witness :
    (sActive.streamSid = some "MZ1" ∧ sActive.twilioOpen = true
      ∧ sActive.eleven ≠ none)
    ∧ ((stepR1 cfg0 sActive (.elevenMsg .interruption)).2
        = [Act.sendTwilio (.clear "MZ1")]
      ∧ (stepR4 sActive (.elevenMsg .interruption)).2
        = [Act.sendTwilio (.clear "MZ1")]
      ∧ (∀ (s2 : Sess) (e : Ev) (sid2 : String) (p : Js),
          Act.sendTwilio (.media sid2 p) ∈ (stepR1 cfg0 s2 e).2 →
          ∃ af aef, e = .elevenMsg (.audio af aef) ∧ p = payloadRev1 af aef)
      ∧ (∀ (s2 : Sess) (e : Ev) (sid2 : String) (p : Js),
          Act.sendTwilio (.media sid2 p) ∈ (stepR4 s2 e).2 →
          ∃ af aef, e = .elevenMsg (.audio af aef) ∧ p = payloadRev4 af aef)) :=
  ⟨⟨rfl, rfl, by simp [sActive]⟩,
   C7_interruption_clear cfg0 sActive "MZ1" rfl (by decide) rfl
     (by simp [sActive])⟩

/-! ## C8 — keepalive -/

/-- C8 (amended): every keepalive `ping` whose `ping_event.event_id` is truthy
(a non-empty string or a non-zero number alike) is answered by exactly one
`{type:"pong", event_id}` carrying the identical id, emitted by the ping's own
handler firing — hence placed before every output generated by any event after
the ping — and the handler changes no state; this holds in rev 1 and rev 2/4.
For a falsy id (absent, `""`, `0`): rev 2/4 send no reply at all and rev 1
sends a pong without the `event_id` field, so the unconditional claim fails
exactly there. -/
theorem C8_keepalive_pong (cfg : Config) (s : Sess) (evts1 evts2 : List Ev)
    (pe : Js)
    (h1 : truthy (jsGet pe "event_id") = true)
    (h3 : (runR1 cfg s evts1).1.eleven ≠ none)
    (h4 : (runR4 s evts1).1.eleven ≠ none) :
    (runR1 cfg s (evts1 ++ Ev.elevenMsg (.ping pe) :: evts2)).2
      = (runR1 cfg s evts1).2
        ++ [Act.sendEleven (.pong (some (jsGet pe "event_id")))]
          :: (runR1 cfg (runR1 cfg s evts1).1 evts2).2
    ∧ (runR4 s (evts1 ++ Ev.elevenMsg (.ping pe) :: evts2)).2
      = (runR4 s evts1).2
        ++ [Act.sendEleven (.pong (some (jsGet pe "event_id")))]
          :: (runR4 (runR4 s evts1).1 evts2).2
    ∧ (∀ (s2 : Sess) (pe2 : Js), truthy (jsGet pe2 "event_id") = false →
        s2.eleven ≠ none →
        stepR4 s2 (.elevenMsg (.ping pe2)) = (s2, [])
        ∧ stepR1 cfg s2 (.elevenMsg (.ping pe2))
          = (s2, [Act.sendEleven (.pong none)])) := by
  obtain ⟨rs1, hrs1⟩ := Option.ne_none_iff_exists'.mp h3
  obtain ⟨rs4, hrs4⟩ := Option.ne_none_iff_exists'.mp h4
  refine ⟨?_, ?_, ?_⟩
  · have hstep : stepR1 cfg (runR1 cfg s evts1).1 (.elevenMsg (.ping pe))
        = ((runR1 cfg s evts1).1,
           [Act.sendEleven (.pong (some (jsGet pe "event_id")))]) := by
      simp [stepR1, hrs1, onElevenMsgR1, h1]
    simp only [runR1] at hstep ⊢
    rw [runWith_append]
    simp [runWith, hstep]
  · have hstep : stepR4 (runR4 s evts1).1 (.elevenMsg (.ping pe))
        = ((runR4 s evts1).1,
           [Act.sendEleven (.pong (some (jsGet pe "event_id")))]) := by
      simp [stepR4, hrs4, onElevenMsgR4, h1]
    simp only [runR4] at hstep ⊢
    rw [runWith_append]
    simp [runWith, hstep]
  · intro s2 pe2 hf he2
    obtain ⟨rs2, hrs2⟩ := Option.ne_none_iff_exists'.mp he2
    constructor
    · simp [stepR4, hrs2, onElevenMsgR4, hf]
    · simp [stepR1, hrs2, onElevenMsgR1, hf]

/-- C8 counterexample: a keepalive `ping` that does carry a
`ping_event.event_id`, but a falsy one.  With `event_id = ""` rev 2/4 write no
reply at all and rev 1 writes a pong without the `event_id` field (so not one
carrying the identical pingId); `event_id = 0` likewise yields no rev-2/4
reply.  This refutes "for every Keepalive event carrying a pingId, exactly one
KeepaliveReply with the identical pingId is written". -/
theorem C8_counterexample :
    (stepR4 sActive (.elevenMsg (.ping (Js.obj [("event_id", Js.str "")])))).2
      = []
    ∧ (stepR1 cfg0 sActive
        (.elevenMsg (.ping (Js.obj [("event_id", Js.str "")])))).2
      = [Act.sendEleven (.pong none)]
    ∧ (stepR4 sActive (.elevenMsg (.ping (Js.obj [("event_id", Js.num 0)])))).2
      = [] :=
  ⟨rfl, rfl, rfl⟩

theorem C8_witness :
    (truthy (jsGet (Js.obj [("event_id", Js.num 7)]) "event_id") = true
      ∧ (runR1 cfg0 sActive []).1.eleven ≠ none
      ∧ (runR4 sActive []).1.eleven ≠ none)
    ∧ ((runR1 cfg0 sActive
          ([] ++ Ev.elevenMsg (.ping (Js.obj [("event_id", Js.num 7)]))
            :: [])).2
        = (runR1 cfg0 sActive []).2
          ++ [Act.sendEleven
              (.pong (some (jsGet (Js.obj [("event_id", Js.num 7)])
                "event_id")))]
            :: (runR1 cfg0 (runR1 cfg0 sActive []).1 []).2
      ∧ (runR4 sActive
          ([] ++ Ev.elevenMsg (.ping (Js.obj [("event_id", Js.num 7)]))
            :: [])).2
        = (runR4 sActive []).2
          ++ [Act.sendEleven
              (.pong (some (jsGet (Js.obj [("event_id", Js.num 7)])
                "event_id")))]
            :: (runR4 (runR4 sActive []).1 []).2
      ∧ (∀ (s2 : Sess) (pe2 : Js), truthy (jsGet pe2 "event_id") = false →
          s2.eleven ≠ none →
          stepR4 s2 (.elevenMsg (.ping pe2)) = (s2, [])
          ∧ stepR1 cfg0 s2 (.elevenMsg (.ping pe2))
            = (s2, [Act.sendEleven (.pong none)]))) :=
  ⟨⟨rfl, by decide, by decide⟩,
   C8_keepalive_pong cfg0 sActive [] [] (Js.obj [("event_id", Js.num 7)])
     rfl (by decide) (by decide)⟩

/-! ## C10 — payload precedence -/

/-- C10 (amended): the audio-payload precedence is JavaScript truthiness:
`audio.chunk` is used if truthy, otherwise `audio_event.audio_base_64`, and in
rev 1 only, the `audio` field itself as the final fallback; an empty-string
chunk is falsy and falls through to the alternate key.  Rev 1 writes exactly
when the selected payload is a non-empty string; rev 2/4 write exactly when
the selected payload is truthy — so a truthy non-string payload is written
as-is in rev 2/4, and "not a string produces no write" holds only for rev 1. -/
theorem C10_payload_precedence (cfg : Config) (s : Sess) (sid : String)
    (af aef : Js)
    (hs : s.streamSid = some sid) (hsid : sid ≠ "") (ht : s.twilioOpen = true)
    (he : s.eleven ≠ none) :
    (truthy (jsGet af "chunk") = true →
      payloadRev1 af aef = jsGet af "chunk"
      ∧ payloadRev4 af aef = jsGet af "chunk")
    ∧ (truthy (jsGet af "chunk") = false →
        payloadRev4 af aef = jsGet aef "audio_base_64")
    ∧ (truthy (jsGet af "chunk") = false →
        truthy (jsGet aef "audio_base_64") = false →
        payloadRev1 af aef = af)
    ∧ (jsGet af "chunk" = Js.str "" →
        payloadRev4 af aef = jsGet aef "audio_base_64")
    ∧ ((stepR1 cfg s (.elevenMsg (.audio af aef))).2
        = match payloadRev1 af aef with
          | .str t =>
              if t.length > 0 then [Act.sendTwilio (.media sid (.str t))]
              else []
          | _ => [])
    ∧ ((stepR4 s (.elevenMsg (.audio af aef))).2
        = if truthy (payloadRev4 af aef) then
            [Act.sendTwilio (.media sid (payloadRev4 af aef))]
          else []) := by
  obtain ⟨rs, hrs⟩ := Option.ne_none_iff_exists'.mp he
  refine ⟨?_, ?_, ?_, ?_, ?_, ?_⟩
  · intro hc
    constructor <;> simp [payloadRev1, payloadRev4, jsOr, hc]
  · intro hc
    simp [payloadRev4, jsOr, hc]
  · intro hc hab
    simp [payloadRev1, jsOr, hc, hab]
  · intro hc
    simp [payloadRev4, jsOr, hc, truthy]
  · rcases hp : payloadRev1 af aef with _ | b | n | t | t | fs <;>
      simp [stepR1, hrs, onElevenMsgR1, hs, hsid, ht, hp] <;>
      split_ifs <;> rfl
  · rcases hp : payloadRev4 af aef with _ | b | n | t | t | fs <;>
      simp [stepR4, hrs, onElevenMsgR4, hs, hsid, ht, hp] <;>
      split_ifs <;> rfl

/-- C10 counterexample: in rev 2/4 a truthy non-string selected payload (here
`audio.chunk = 5`) does produce a write — the number is embedded as the media
payload — contradicting "an event whose selected payload is absent, empty, or
not a string produces no write".  Rev 1, with its `typeof` guard, writes
nothing for the same event. -/
theorem C10_counterexample :
    (stepR4 sActive
        (.elevenMsg (.audio (Js.obj [("chunk", Js.num 5)]) Js.undefined))).2
      = [Act.sendTwilio (.media "MZ1" (Js.num 5))]
    ∧ (∀ t : String, Js.num 5 ≠ Js.str t)
    ∧ (stepR1 cfg0 sActive
        (.elevenMsg (.audio (Js.obj [("chunk", Js.num 5)]) Js.undefined))).2
      = [] :=
  ⟨rfl, fun t h => Js.noConfusion h, rfl⟩

theorem C10_witness :
    (sActive.streamSid = some "MZ1" ∧ sActive.twilioOpen = true
      ∧ sActive.eleven ≠ none)
    ∧ ((truthy (jsGet (Js.obj [("chunk", Js.str "")]) "chunk") = true →
          payloadRev1 (Js.obj [("chunk", Js.str "")])
              (Js.obj [("audio_base_64", Js.str "QQ==")])
            = jsGet (Js.obj [("chunk", Js.str "")]) "chunk"
          ∧ payloadRev4 (Js.obj [("chunk", Js.str "")])
              (Js.obj [("audio_base_64", Js.str "QQ==")])
            = jsGet (Js.obj [("chunk", Js.str "")]) "chunk")
      ∧ (truthy (jsGet (Js.obj [("chunk", Js.str "")]) "chunk") = false →
          payloadRev4 (Js.obj [("chunk", Js.str "")])
              (Js.obj [("audio_base_64", Js.str "QQ==")])
            = jsGet (Js.obj [("audio_base_64", Js.str "QQ==")])
                "audio_base_64")
      ∧ (truthy (jsGet (Js.obj [("chunk", Js.str "")]) "chunk") = false →
          truthy (jsGet (Js.obj [("audio_base_64", Js.str "QQ==")])
              "audio_base_64") = false →
          payloadRev1 (Js.obj [("chunk", Js.str "")])
              (Js.obj [("audio_base_64", Js.str "QQ==")])
            = Js.obj [("chunk", Js.str "")])
      ∧ (jsGet (Js.obj [("chunk", Js.str "")]) "chunk" = Js.str "" →
          payloadRev4 (Js.obj [("chunk", Js.str "")])
              (Js.obj [("audio_base_64", Js.str "QQ==")])
            = jsGet (Js.obj [("audio_base_64", Js.str "QQ==")])
                "audio_base_64")
      ∧ ((stepR1 cfg0 sActive
            (.elevenMsg (.audio (Js.obj [("chunk", Js.str "")])
              (Js.obj [("audio_base_64", Js.str "QQ==")])))).2
          = match payloadRev1 (Js.obj [("chunk", Js.str "")])
                (Js.obj [("audio_base_64", Js.str "QQ==")]) with
            | .str t =>
                if t.length > 0 then
                  [Act.sendTwilio (.media "MZ1" (.str t))]
                else []
            | _ => [])
      ∧ ((stepR4 sActive
            (.elevenMsg (.audio (Js.obj [("chunk", Js.str "")])
              (Js.obj [("audio_base_64", Js.str "QQ==")])))).2
          = if truthy (payloadRev4 (Js.obj [("chunk", Js.str "")])
                (Js.obj [("audio_base_64", Js.str "QQ==")])) then
              [Act.sendTwilio (.media "MZ1"
                (payloadRev4 (Js.obj [("chunk", Js.str "")])
                  (Js.obj [("audio_base_64", Js.str "QQ==")])))]
            else [])) :=
  ⟨⟨rfl, rfl, by simp [sActive]⟩,
   C10_payload_precedence cfg0 sActive "MZ1"
     (Js.obj [("chunk", Js.str "")])
     (Js.obj [("audio_base_64", Js.str "QQ==")])
     rfl (by decide) rfl (by simp [sActive])⟩
